/-
Verification of the multi-view webview session core (iced_webview).

Shallow embedding of the core data model and operations:
  * `ImageInfo` and its constructors (`src/lib.rs`),
  * the `Views` registry (`src/engines.rs`),
  * the Ultralight engine adapter's view bookkeeping (`src/engines/ultralight.rs`),
  * the basic and advanced widget command dispatch (`src/webview/basic.rs`,
    `src/webview/advanced.rs`) and the legacy tab update loop (`src/webview.rs`),
  * the keyboard translation `iced_key_to_ultralight_key`
    (`src/engines/ultralight.rs`).

Machine integers are modelled as `Nat` (buffer lengths and ids are bounded by
memory in the source, far below overflow). Fallible code (Rust `panic!`,
`expect`, failed `assert_eq!`) is modelled with `Option`: `none` marks a panic.
Randomness (`rand::thread_rng().gen()`) is modelled by passing the drawn value
explicitly as an argument.
-/
import Mathlib

namespace IcedWebview

/-! ## FrameBuffer: `ImageInfo` (src/lib.rs) -/

inductive PixelFormat where
  | rgba
  | bgra
deriving DecidableEq, Repr

structure ImageInfo where
  pixels : List Nat
  width : Nat
  height : Nat
deriving DecidableEq, Repr

/-- `impl Default for ImageInfo`: all-255 pixels, fixed 800 by 800. -/
def ImageInfo.default : ImageInfo :=
  { pixels := List.replicate ((800 * 800) * 4) 255
    width := 800
    height := 800 }

/-- `ImageInfo::blank(width, height)`: all-255 pixels of the given size. -/
def ImageInfo.blank (width height : Nat) : ImageInfo :=
  { pixels := List.replicate ((width * height) * 4) 255
    width := width
    height := height }

/-- The per-chunk byte swap done by `ImageInfo::new` for `PixelFormat::Bgra`:
`pixels.chunks(4).flat_map(|chunk| [chunk[2], chunk[1], chunk[0], chunk[3]])`.
A trailing chunk shorter than 4 bytes is returned unchanged; in the source such
a chunk would be an out-of-bounds panic, but `ImageInfo::new` only applies the
conversion after asserting `pixels.len() % 4 == 0`, so that case is unreachable
from `ImageInfo.new`. -/
def bgraToRgba : List Nat → List Nat
  | b :: g :: r :: a :: rest => r :: g :: b :: a :: bgraToRgba rest
  | other => other

/-- `ImageInfo::new(pixels, format, width, height)`.
`assert_eq!(pixels.len() % 4, 0)` is modelled as returning `none` (panic)
when the length is not a multiple of 4. -/
def ImageInfo.new (pixels : List Nat) (format : PixelFormat)
    (width height : Nat) : Option ImageInfo :=
  if pixels.length % 4 = 0 then
    some { pixels :=
             match format with
             | .rgba => pixels
             | .bgra => bgraToRgba pixels
           width := width
           height := height }
  else
    none

/-! Basic facts about the constructors. -/

theorem ImageInfo.default_pixels_length :
    ImageInfo.default.pixels.length = (800 * 800) * 4 :=
  List.length_replicate _ _

theorem ImageInfo.default_pixels_all_255 :
    ∀ b ∈ ImageInfo.default.pixels, b = 255 := fun _ hb =>
  List.eq_of_mem_replicate hb

theorem ImageInfo.default_width : ImageInfo.default.width = 800 := rfl

theorem ImageInfo.default_height : ImageInfo.default.height = 800 := rfl

theorem ImageInfo.blank_pixels_length (w h : Nat) :
    (ImageInfo.blank w h).pixels.length = (w * h) * 4 :=
  List.length_replicate _ _

theorem ImageInfo.blank_pixels_all_255 (w h : Nat) :
    ∀ b ∈ (ImageInfo.blank w h).pixels, b = 255 := fun _ hb =>
  List.eq_of_mem_replicate hb

theorem bgraToRgba_length : ∀ l : List Nat, (bgraToRgba l).length = l.length
  | b :: g :: r :: a :: rest => by
      simp [bgraToRgba, bgraToRgba_length rest]
  | [] => rfl
  | [_] => rfl
  | [_, _] => rfl
  | [_, _, _] => rfl

theorem ImageInfo.new_length (pixels : List Nat) (format : PixelFormat)
    (w h : Nat) (img : ImageInfo)
    (himg : ImageInfo.new pixels format w h = some img) :
    img.pixels.length = pixels.length ∧ img.width = w ∧ img.height = h := by
  unfold ImageInfo.new at himg
  split at himg
  · rw [Option.some_inj] at himg
    cases format <;> cases himg
    · exact ⟨rfl, rfl, rfl⟩
    · exact ⟨bgraToRgba_length pixels, rfl, rfl⟩
  · exact absurd himg (by simp)

theorem ImageInfo.new_rejects (pixels : List Nat) (format : PixelFormat)
    (w h : Nat) (hlen : pixels.length % 4 ≠ 0) :
    ImageInfo.new pixels format w h = none := by
  simp [ImageInfo.new, hlen]

theorem bgraToRgba_involutive : ∀ l : List Nat, l.length % 4 = 0 →
    bgraToRgba (bgraToRgba l) = l
  | [], _ => rfl
  | [_], h => absurd h (by simp)
  | [_, _], h => absurd h (by simp)
  | [_, _, _], h => absurd h (by simp)
  | b :: g :: r :: a :: rest, h => by
      have h' : rest.length % 4 = 0 := by
        simp only [List.length_cons] at h
        omega
      simp [bgraToRgba, bgraToRgba_involutive rest h']

theorem cons4_getElem? (w x y z : Nat) (t : List Nat) (n : Nat) :
    (w :: x :: y :: z :: t)[n + 4]? = t[n]? := by
  rw [show n + 4 = (((n + 1) + 1) + 1) + 1 from rfl,
      List.getElem?_cons_succ, List.getElem?_cons_succ,
      List.getElem?_cons_succ, List.getElem?_cons_succ]

theorem bgraToRgba_pixel : ∀ l : List Nat, l.length % 4 = 0 → ∀ i : Nat,
    (bgraToRgba l)[4 * i]? = l[4 * i + 2]? ∧
    (bgraToRgba l)[4 * i + 1]? = l[4 * i + 1]? ∧
    (bgraToRgba l)[4 * i + 2]? = l[4 * i]? ∧
    (bgraToRgba l)[4 * i + 3]? = l[4 * i + 3]?
  | [], _, i => by simp [bgraToRgba]
  | [_], h, _ => absurd h (by simp)
  | [_, _], h, _ => absurd h (by simp)
  | [_, _, _], h, _ => absurd h (by simp)
  | b :: g :: r :: a :: rest, h, 0 => by
      simp [bgraToRgba]
  | b :: g :: r :: a :: rest, h, (i + 1) => by
      have h' : rest.length % 4 = 0 := by
        simp only [List.length_cons] at h
        omega
      have IH := bgraToRgba_pixel rest h' i
      simp only [bgraToRgba]
      refine ⟨?_, ?_, ?_, ?_⟩
      · rw [show (4 : Nat) * (i + 1) + 2 = (4 * i + 2) + 4 by ring,
            show (4 : Nat) * (i + 1) = 4 * i + 4 by ring,
            cons4_getElem?, cons4_getElem?]
        exact IH.1
      · rw [show (4 : Nat) * (i + 1) + 1 = (4 * i + 1) + 4 by ring,
            cons4_getElem?, cons4_getElem?]
        exact IH.2.1
      · rw [show (4 : Nat) * (i + 1) + 2 = (4 * i + 2) + 4 by ring,
            show (4 : Nat) * (i + 1) = 4 * i + 4 by ring,
            cons4_getElem?, cons4_getElem?]
        exact IH.2.2.1
      · rw [show (4 : Nat) * (i + 1) + 3 = (4 * i + 3) + 4 by ring,
            cons4_getElem?, cons4_getElem?]
        exact IH.2.2.2

/-! ## Claims C1, C8, C10 -/

/-- Claim C1 counterexample: `ImageInfo::new` accepts the 4-byte buffer
`[0, 0, 0, 0]` together with `width = 2, height = 2` (its assertion only
checks `len % 4 == 0`), producing a value with `pixels.len() = 4` while
`width * height * 4 = 16`; so a buffer whose length differs from
`width*height*4` is not rejected, refuting the claimed invariant. -/
theorem C1_counterexample :
    (ImageInfo.new [0, 0, 0, 0] PixelFormat.rgba 2 2).map
        (fun img => img.pixels.length) = some 4 ∧
    (ImageInfo.new [0, 0, 0, 0] PixelFormat.rgba 2 2).map
        (fun img => (img.width * img.height) * 4) = some 16 ∧
    (4 : Nat) ≠ 16 := by
  refine ⟨rfl, rfl, by decide⟩

/-- Claim C1 (amended): `ImageInfo.blank` and `ImageInfo.default` always
satisfy `len(pixels) == width*height*4`; `ImageInfo.new` rejects (panics on)
exactly those input buffers whose byte length is not a multiple of 4, and
otherwise accepts the buffer unchanged in length — it does not check the
length against `width*height*4`, so that invariant holds for `blank` and
`default` but is not enforced by `new`. -/
theorem C1_framebuffer_invariant :
    (∀ w h : Nat, (ImageInfo.blank w h).pixels.length =
      ((ImageInfo.blank w h).width * (ImageInfo.blank w h).height) * 4) ∧
    (ImageInfo.default.pixels.length =
      (ImageInfo.default.width * ImageInfo.default.height) * 4) ∧
    (∀ (pixels : List Nat) (format : PixelFormat) (w h : Nat),
      pixels.length % 4 ≠ 0 → ImageInfo.new pixels format w h = none) ∧
    (∀ (pixels : List Nat) (format : PixelFormat) (w h : Nat)
      (img : ImageInfo), ImageInfo.new pixels format w h = some img →
      img.pixels.length = pixels.length ∧ img.width = w ∧ img.height = h) :=
  ⟨fun w h => ImageInfo.blank_pixels_length w h,
   ImageInfo.default_pixels_length,
   fun pixels format w h hlen => ImageInfo.new_rejects pixels format w h hlen,
   fun pixels format w h img himg =>
     ImageInfo.new_length pixels format w h img himg⟩

/-- Witness for the amended C1 at a concrete rejected input. -/
theorem C1_witness :
    ImageInfo.new [0, 0, 0] PixelFormat.rgba 1 1 = none :=
  C1_framebuffer_invariant.2.2.1 [0, 0, 0] PixelFormat.rgba 1 1 (by decide)

/-- Claim C8: the BGRA canonicalization of `ImageInfo::new` swaps exactly
bytes 0 and 2 of every 4-byte pixel, leaves bytes 1 (G) and 3 (A) unchanged,
and is an involution on every buffer whose length is a multiple of 4; a
BGRA buffer fed to `ImageInfo.new` is stored as its per-pixel byte swap. -/
theorem C8_bgra_canonicalization (l : List Nat) (h : l.length % 4 = 0) :
    bgraToRgba (bgraToRgba l) = l ∧
    (∀ i : Nat,
      (bgraToRgba l)[4 * i]? = l[4 * i + 2]? ∧
      (bgraToRgba l)[4 * i + 1]? = l[4 * i + 1]? ∧
      (bgraToRgba l)[4 * i + 2]? = l[4 * i]? ∧
      (bgraToRgba l)[4 * i + 3]? = l[4 * i + 3]?) ∧
    (∀ w hgt : Nat, ImageInfo.new l PixelFormat.bgra w hgt =
      some { pixels := bgraToRgba l, width := w, height := hgt }) :=
  ⟨bgraToRgba_involutive l h, bgraToRgba_pixel l h,
   fun w hgt => by simp [ImageInfo.new, h]⟩

/-- Witness for C8 at the concrete single-pixel buffer `[10, 20, 30, 40]`. -/
theorem C8_witness :
    bgraToRgba (bgraToRgba [10, 20, 30, 40]) = [10, 20, 30, 40] ∧
    (bgraToRgba [10, 20, 30, 40])[4 * 0]? = [10, 20, 30, 40][4 * 0 + 2]? ∧
    ImageInfo.new [10, 20, 30, 40] PixelFormat.bgra 1 1 =
      some { pixels := bgraToRgba [10, 20, 30, 40], width := 1, height := 1 } :=
  ⟨(C8_bgra_canonicalization [10, 20, 30, 40] (by decide)).1,
   ((C8_bgra_canonicalization [10, 20, 30, 40] (by decide)).2.1 0).1,
   (C8_bgra_canonicalization [10, 20, 30, 40] (by decide)).2.2 1 1⟩

/-- Claim C10: `ImageInfo::blank(w, h)` yields exactly `w*h*4` bytes, all
equal to 255, with dimensions `w` by `h`; `ImageInfo::default()` is the same
all-255 buffer at the fixed 800 by 800 size (indeed it equals
`blank 800 800`), so both satisfy `len(pixels) == width*height*4`. -/
theorem C10_blank_default :
    (∀ w h : Nat,
      (ImageInfo.blank w h).width = w ∧ (ImageInfo.blank w h).height = h ∧
      (ImageInfo.blank w h).pixels.length = (w * h) * 4 ∧
      ∀ b ∈ (ImageInfo.blank w h).pixels, b = 255) ∧
    (ImageInfo.default.width = 800 ∧ ImageInfo.default.height = 800 ∧
      ImageInfo.default.pixels.length = (800 * 800) * 4 ∧
      ∀ b ∈ ImageInfo.default.pixels, b = 255) ∧
    ImageInfo.default = ImageInfo.blank 800 800 :=
  ⟨fun w h => ⟨rfl, rfl, ImageInfo.blank_pixels_length w h,
     ImageInfo.blank_pixels_all_255 w h⟩,
   ⟨rfl, rfl, ImageInfo.default_pixels_length,
     ImageInfo.default_pixels_all_255⟩,
   rfl⟩

/-- Witness for C10 at the concrete size 2 by 3. -/
theorem C10_witness :
    (ImageInfo.blank 2 3).pixels.length = (2 * 3) * 4 ∧ (255 : Nat) = 255 :=
  ⟨(C10_blank_default.1 2 3).2.2.1,
   (C10_blank_default.1 2 3).2.2.2 255 (by decide)⟩

/-! ## View registry: `View` and `Views` (src/engines.rs) -/

structure View where
  id : Nat
  view : ImageInfo

/-- `View::new(info)`: the id is `rand::thread_rng().gen()`; the drawn random
value is passed explicitly. The initial frame is `ImageInfo::default()`. -/
def View.new (drawnId : Nat) : View :=
  { id := drawnId, view := ImageInfo.default }

structure Views where
  views : List View
  history : List Nat

def Views.empty : Views := { views := [], history := [] }

/-- `Views::get_current_id`: `self.history.last()`. -/
def Views.get_current_id (v : Views) : Option Nat :=
  v.history.getLast?

/-- `Views::set_current_id`: `self.history.push(id)`. -/
def Views.set_current_id (v : Views) (id : Nat) : Views :=
  { v with history := v.history ++ [id] }

/-- `Views::insert`: pushes the view, returns its id. -/
def Views.insert (v : Views) (view : View) : Views × Nat :=
  ({ v with views := v.views ++ [view] }, view.id)

/-- `Views::remove`: retains the history entries and views whose id differs,
then returns `get_current_id()` of the updated registry. -/
def Views.remove (v : Views) (id : Nat) : Views × Option Nat :=
  let v' : Views :=
    { history := v.history.filter (fun h => decide (h ≠ id))
      views := v.views.filter (fun w => decide (w.id ≠ id)) }
  (v', v'.get_current_id)

/-- `Views::get`: first view with the given id, `None` when absent
(`Views::get_mut` does the same lookup but panics when absent). -/
def Views.get (v : Views) (id : Nat) : Option View :=
  v.views.find? (fun w => decide (w.id = id))

/-- The ids of the live views, in storage order. -/
def Views.liveIds (v : Views) : List Nat := v.views.map View.id

/-- The view-creation / view-removal command vocabulary acting on the
registry. `create` mirrors the source's creation path (`View::new` with the
drawn random id, `insert`, then `set_current_id` on the returned id, as in
the `CreateTab`/`CreateView` handlers); `close` mirrors `Views::remove`. -/
inductive RegOp where
  | create (drawnId : Nat)
  | close (id : Nat)

def Views.step (v : Views) : RegOp → Views
  | .create drawnId =>
      let p := v.insert (View.new drawnId)
      p.1.set_current_id p.2
  | .close id => (v.remove id).1

def Views.run (v : Views) : List RegOp → Views
  | [] => v
  | op :: rest => (v.step op).run rest

/-- The random ids drawn by the `create` commands of a sequence, in order. -/
def createdIds : List RegOp → List Nat
  | [] => []
  | .create rid :: rest => rid :: createdIds rest
  | .close _ :: rest => createdIds rest

theorem Views.step_create_liveIds (v : Views) (rid : Nat) :
    (v.step (.create rid)).liveIds = v.liveIds ++ [rid] := by
  simp [Views.step, Views.insert, Views.set_current_id, View.new,
    Views.liveIds]

theorem Views.step_close_sublist (v : Views) (cid : Nat) :
    (v.step (.close cid)).liveIds.Sublist v.liveIds :=
  List.Sublist.map View.id (List.filter_sublist v.views)

theorem Views.step_close_not_mem (v : Views) (cid : Nat) :
    cid ∉ (v.step (.close cid)).liveIds := by
  intro hmem
  obtain ⟨w, hw, hid⟩ := List.mem_map.mp hmem
  have := (List.mem_filter.mp hw).2
  exact of_decide_eq_true this hid

theorem Views.run_append (v : Views) (l₁ l₂ : List RegOp) :
    v.run (l₁ ++ l₂) = (v.run l₁).run l₂ := by
  induction l₁ generalizing v with
  | nil => rfl
  | cons op rest ih => simp [Views.run, ih]

theorem Views.run_not_live (ops : List RegOp) (v : Views) (id : Nat)
    (hv : id ∉ v.liveIds) (hc : id ∉ createdIds ops) :
    id ∉ (v.run ops).liveIds := by
  induction ops generalizing v with
  | nil => exact hv
  | cons op rest ih =>
    cases op with
    | create rid =>
      refine ih (v.step (.create rid)) ?_ ?_
      · rw [Views.step_create_liveIds]
        intro hmem
        rcases List.mem_append.mp hmem with h | h
        · exact hv h
        · rcases List.mem_singleton.mp h with rfl
          exact hc (List.mem_cons_self _ _)
      · intro h
        exact hc (List.mem_cons_of_mem _ h)
    | close cid =>
      refine ih (v.step (.close cid)) ?_ hc
      intro h
      exact hv ((Views.step_close_sublist v cid).subset h)

theorem Views.run_nodup (ops : List RegOp) (v : Views)
    (h1 : v.liveIds.Nodup)
    (h2 : ∀ id ∈ v.liveIds, id ∉ createdIds ops)
    (h3 : (createdIds ops).Nodup) :
    ((v.run ops).liveIds).Nodup ∧
    ∀ id ∈ (v.run ops).liveIds, id ∈ v.liveIds ∨ id ∈ createdIds ops := by
  induction ops generalizing v with
  | nil => exact ⟨h1, fun id hid => Or.inl hid⟩
  | cons op rest ih =>
    cases op with
    | create rid =>
      have hrid_not_live : rid ∉ v.liveIds := by
        intro h
        exact h2 rid h (List.mem_cons_self _ _)
      have h1' : (v.step (.create rid)).liveIds.Nodup := by
        rw [Views.step_create_liveIds]
        refine List.Nodup.append h1 (List.nodup_singleton rid) ?_
        intro x hx hx'
        rcases List.mem_singleton.mp hx' with rfl
        exact hrid_not_live hx
      have h2' : ∀ id ∈ (v.step (.create rid)).liveIds,
          id ∉ createdIds rest := by
        rw [Views.step_create_liveIds]
        intro id hid
        rcases List.mem_append.mp hid with h | h
        · intro hmem
          exact h2 id h (List.mem_cons_of_mem _ hmem)
        · rcases List.mem_singleton.mp h with rfl
          exact (List.nodup_cons.mp h3).1
      have h3' : (createdIds rest).Nodup := (List.nodup_cons.mp h3).2
      obtain ⟨hn, hm⟩ := ih (v.step (.create rid)) h1' h2' h3'
      refine ⟨hn, fun id hid => ?_⟩
      rcases hm id hid with h | h
      · rw [Views.step_create_liveIds] at h
        rcases List.mem_append.mp h with h | h
        · exact Or.inl h
        · rcases List.mem_singleton.mp h with rfl
          exact Or.inr (List.mem_cons_self _ _)
      · exact Or.inr (List.mem_cons_of_mem _ h)
    | close cid =>
      have hsub := Views.step_close_sublist v cid
      have h1' := h1.sublist hsub
      have h2' : ∀ id ∈ (v.step (.close cid)).liveIds,
          id ∉ createdIds rest := fun id hid => h2 id (hsub.subset hid)
      obtain ⟨hn, hm⟩ := ih (v.step (.close cid)) h1' h2' h3
      refine ⟨hn, fun id hid => ?_⟩
      rcases hm id hid with h | h
      · exact Or.inl (hsub.subset h)
      · exact Or.inr h

/-! ## Claims C2 and C9 -/

/-- Claim C2 counterexample: ids are drawn from `rand::thread_rng().gen()`
with no collision check, and `insert` stores the view unconditionally. If the
generator draws the value 0 twice, two simultaneously live views share the
id 0, refuting "no two live views ever share a ViewId" as a property of the
code for every operation sequence. -/
theorem C2_counterexample :
    (Views.run Views.empty [RegOp.create 0, RegOp.create 0]).liveIds
      = [0, 0] ∧
    ¬ ((Views.run Views.empty
        [RegOp.create 0, RegOp.create 0]).liveIds).Nodup := by
  have e : (Views.run Views.empty [RegOp.create 0, RegOp.create 0]).liveIds
      = [0, 0] := rfl
  refine ⟨e, ?_⟩
  rw [e]
  decide

/-- Claim C2 (amended): the registry itself performs no freshness check —
ids come from the random generator. Uniqueness holds exactly when the drawn
values never repeat: for every command sequence whose drawn ids are pairwise
distinct, no two live views ever share an id, every live id is one of the
drawn ids, and an id that was closed and never drawn again afterward is never
live again (no reuse). -/
theorem C2_uniqueness (ops : List RegOp)
    (hnd : (createdIds ops).Nodup) :
    ((Views.run Views.empty ops).liveIds).Nodup ∧
    (∀ id ∈ (Views.run Views.empty ops).liveIds, id ∈ createdIds ops) ∧
    (∀ (pre post : List RegOp) (id : Nat),
      ops = pre ++ RegOp.close id :: post → id ∉ createdIds post →
      id ∉ (Views.run Views.empty ops).liveIds) := by
  obtain ⟨hn, hm⟩ := Views.run_nodup ops Views.empty
    (by simp [Views.empty, Views.liveIds])
    (by simp [Views.empty, Views.liveIds]) hnd
  refine ⟨hn, fun id hid => ?_, ?_⟩
  · rcases hm id hid with h | h
    · simp [Views.empty, Views.liveIds] at h
    · exact h
  · intro pre post id hops hpost
    subst hops
    rw [show pre ++ RegOp.close id :: post
          = (pre ++ [RegOp.close id]) ++ post by simp,
        Views.run_append]
    refine Views.run_not_live post _ id ?_ hpost
    rw [Views.run_append]
    exact Views.step_close_not_mem _ id

/-- Witness for the amended C2 on a concrete sequence with distinct draws. -/
theorem C2_witness :
    ((Views.run Views.empty
      [RegOp.create 1, RegOp.create 2, RegOp.close 1]).liveIds).Nodup :=
  (C2_uniqueness [RegOp.create 1, RegOp.create 2, RegOp.close 1]
    (by decide)).1

/-- Claim C9: `Views::remove(id)` deletes every history entry equal to `id`
and every stored view with that id, and returns the new current id — the last
(most recently pushed, i.e. most recently set current) entry of the remaining
history — or `none` when the remaining history is empty; it never panics
(it is a total function). -/
theorem C9_remove (v : Views) (id : Nat) :
    (∀ h ∈ ((Views.remove v id).1).history, h ≠ id) ∧
    (∀ w ∈ ((Views.remove v id).1).views, w.id ≠ id) ∧
    ((Views.remove v id).1).history
      = v.history.filter (fun h => decide (h ≠ id)) ∧
    ((Views.remove v id).1).views
      = v.views.filter (fun w => decide (w.id ≠ id)) ∧
    (Views.remove v id).2
      = (v.history.filter (fun h => decide (h ≠ id))).getLast? ∧
    ((Views.remove v id).2 = none ↔ ((Views.remove v id).1).history = []) ∧
    (∀ x, (Views.remove v id).2 = some x → x ∈ v.history ∧ x ≠ id) := by
  refine ⟨?_, ?_, rfl, rfl, rfl, ?_, ?_⟩
  · intro h hmem
    exact of_decide_eq_true (List.mem_filter.mp hmem).2
  · intro w hmem
    exact of_decide_eq_true (List.mem_filter.mp hmem).2
  · show (v.history.filter _).getLast? = none ↔ v.history.filter _ = []
    exact List.getLast?_eq_none_iff
  · intro x hx
    have hx' : x ∈ v.history.filter (fun h => decide (h ≠ id)) :=
      List.mem_of_mem_getLast? hx
    have := List.mem_filter.mp hx'
    exact ⟨this.1, of_decide_eq_true this.2⟩

/-- Witness for C9 at a concrete registry. -/
theorem C9_witness :
    (5 : Nat) ∈ (Views.mk [View.new 5, View.new 7] [5, 7, 5]).history ∧
    (5 : Nat) ≠ 7 :=
  (C9_remove (Views.mk [View.new 5, View.new 7] [5, 7, 5]) 7).2.2.2.2.2.2
    5 rfl

/-! ## Render gating on load state: `WebView::update_engine` (src/webview.rs) -/

/-- `ImageInfo { width, height, ..Default::default() }`: the placeholder the
update loop stores while the engine is loading. The struct-update syntax
keeps the default all-255 pixel buffer and overrides only the dimensions. -/
def placeholderFrame (w h : Nat) : ImageInfo :=
  { pixels := ImageInfo.default.pixels, width := w, height := h }

/-- `get_mut(id)` followed by `set_view(img)`: replace the frame of the first
view with the given id; `none` models the panic of `Views::get_mut` when the
id is absent. -/
def setViewFirst : List View → Nat → ImageInfo → Option (List View)
  | [], _, _ => none
  | w :: rest, id, img =>
      if w.id = id then some ({ w with view := img } :: rest)
      else (setViewFirst rest id img).map (fun l => w :: l)

/-- `self.get_tabs_mut().get_current_mut().expect(..).set_view(view)`:
look up the current id in the history, then mutate the first matching view;
`none` models either panic (empty history, or a stale current id). -/
def Views.setCurrentView (v : Views) (img : ImageInfo) : Option Views :=
  match v.get_current_id with
  | none => none
  | some id =>
    match setViewFirst v.views id img with
    | none => none
    | some views' => some { v with views := views' }

/-- `WebView::update_engine` (src/webview.rs). The engine queries
(`has_loaded`, `need_render`, `pixel_buffer`) are passed as explicit values;
`vw`/`vh` is the widget's `view_size`. `none` models a panic. -/
def update_engine (has_loaded : Option Bool) (need_render : Bool)
    (pixel_buffer : Option (PixelFormat × List Nat))
    (vw vh : Nat) (tabs : Views) : Option Views :=
  match has_loaded with
  | none => some tabs
  | some true =>
      if need_render then
        match pixel_buffer with
        | some (format, image_data) =>
            match ImageInfo.new image_data format vw vh with
            | none => none
            | some view => tabs.setCurrentView view
        | none => some tabs
      else some tabs
  | some false => tabs.setCurrentView (placeholderFrame vw vh)

theorem setViewFirst_exists : ∀ (l : List View) (id : Nat) (img : ImageInfo),
    (∃ w ∈ l, w.id = id) → ∃ l', setViewFirst l id img = some l'
  | [], _, _, hex => absurd hex (by simp)
  | w :: rest, id, img, hex => by
      by_cases hw : w.id = id
      · exact ⟨{ w with view := img } :: rest, by simp [setViewFirst, hw]⟩
      · have hex' : ∃ x ∈ rest, x.id = id := by
          obtain ⟨x, hx, hxid⟩ := hex
          rcases List.mem_cons.mp hx with rfl | hx'
          · exact absurd hxid hw
          · exact ⟨x, hx', hxid⟩
        obtain ⟨rest', hrest'⟩ := setViewFirst_exists rest id img hex'
        exact ⟨w :: rest', by simp [setViewFirst, hw, hrest']⟩

theorem setViewFirst_mem : ∀ (l : List View) (id : Nat) (img : ImageInfo)
    (l' : List View), setViewFirst l id img = some l' →
    (∃ w ∈ l', w.id = id ∧ w.view = img) ∧
    ∀ w' ∈ l', w'.view = img ∨ ∃ w ∈ l, w.id = w'.id ∧ w'.view = w.view
  | [], _, _, _, h => absurd h (by simp [setViewFirst])
  | w :: rest, id, img, l', h => by
      by_cases hw : w.id = id
      · simp only [setViewFirst] at h
        rw [if_pos hw, Option.some_inj] at h
        subst h
        refine ⟨⟨{ w with view := img }, List.mem_cons_self _ _, hw, rfl⟩, ?_⟩
        intro w' hw'
        rcases List.mem_cons.mp hw' with rfl | hmem
        · exact Or.inl rfl
        · exact Or.inr ⟨w', List.mem_cons_of_mem _ hmem, rfl, rfl⟩
      · simp only [setViewFirst] at h
        rw [if_neg hw] at h
        rcases hrest : setViewFirst rest id img with _ | ⟨rest'⟩
        · rw [hrest] at h
          exact absurd h (by simp)
        · rw [hrest] at h
          simp only [Option.map_some'] at h
          rw [Option.some_inj] at h
          subst h
          obtain ⟨hfound, hall⟩ := setViewFirst_mem rest id img rest' hrest
          refine ⟨?_, ?_⟩
          · obtain ⟨x, hx, hxid, hximg⟩ := hfound
            exact ⟨x, List.mem_cons_of_mem _ hx, hxid, hximg⟩
          · intro w' hw'
            rcases List.mem_cons.mp hw' with rfl | hmem
            · exact Or.inr ⟨w', List.mem_cons_self _ _, rfl, rfl⟩
            · rcases hall w' hmem with h | ⟨x, hx, hxid, hxview⟩
              · exact Or.inl h
              · exact Or.inr ⟨x, List.mem_cons_of_mem _ hx, hxid, hxview⟩

theorem Views.setCurrentView_spec (v : Views) (img : ImageInfo) (cid : Nat)
    (hcur : v.get_current_id = some cid)
    (hex : ∃ w ∈ v.views, w.id = cid) :
    ∃ v', v.setCurrentView img = some v' ∧
      (∃ w ∈ v'.views, w.id = cid ∧ w.view = img) ∧
      ∀ w' ∈ v'.views,
        w'.view = img ∨ ∃ w ∈ v.views, w.id = w'.id ∧ w'.view = w.view := by
  obtain ⟨l', hl'⟩ := setViewFirst_exists v.views cid img hex
  obtain ⟨hfound, hall⟩ := setViewFirst_mem v.views cid img l' hl'
  refine ⟨{ v with views := l' }, ?_, hfound, hall⟩
  simp [Views.setCurrentView, hcur, hl']

/-! ## Claim C4 -/

/-- Claim C4: on an update tick, if the engine reports the current view is
still loading (`has_loaded == Some(false)`) then the pixel buffer is never
consulted (the result is literally the placeholder update, whatever
`need_render`/`pixel_buffer` are), and the current view's stored frame
becomes the solid all-255 placeholder whose dimensions are the current
viewport; whenever the engine does not report `Some(true)`, every stored
frame is either unchanged or the placeholder — freshly painted pixels are
stored only in the `has_loaded == Some(true)` branch. -/
theorem C4_loading_gate (hl : Option Bool) (nr : Bool)
    (pb : Option (PixelFormat × List Nat)) (vw vh cid : Nat) (tabs : Views)
    (hcur : tabs.get_current_id = some cid)
    (hlive : ∃ w ∈ tabs.views, w.id = cid) :
    (update_engine (some false) nr pb vw vh tabs
      = tabs.setCurrentView (placeholderFrame vw vh)) ∧
    (∃ tabs', update_engine (some false) nr pb vw vh tabs = some tabs' ∧
      ∃ w ∈ tabs'.views, w.id = cid ∧ w.view.width = vw ∧
        w.view.height = vh ∧ ∀ b ∈ w.view.pixels, b = 255) ∧
    (hl ≠ some true →
      ∀ tabs', update_engine hl nr pb vw vh tabs = some tabs' →
      ∀ w' ∈ tabs'.views,
        w'.view = placeholderFrame vw vh ∨
        ∃ w ∈ tabs.views, w.id = w'.id ∧ w'.view = w.view) ∧
    (∀ format data img, ImageInfo.new data format vw vh = some img →
      update_engine (some true) true (some (format, data)) vw vh tabs
        = tabs.setCurrentView img) := by
  obtain ⟨v', hv', ⟨w, hwmem, hwid, hwview⟩, hall⟩ :=
    tabs.setCurrentView_spec (placeholderFrame vw vh) cid hcur hlive
  refine ⟨rfl, ?_, ?_, ?_⟩
  · refine ⟨v', hv', w, hwmem, hwid, ?_, ?_, ?_⟩
    · rw [hwview]; rfl
    · rw [hwview]; rfl
    · rw [hwview]
      exact ImageInfo.default_pixels_all_255
  · intro hne tabs' htabs' w' hw'
    match hl with
    | none =>
        have h2 : some tabs = some tabs' := htabs'
        rw [Option.some_inj] at h2
        subst h2
        exact Or.inr ⟨w', hw', rfl, rfl⟩
    | some true => exact absurd rfl hne
    | some false =>
        have : tabs.setCurrentView (placeholderFrame vw vh) = some tabs' :=
          htabs'
        rw [hv', Option.some_inj] at this
        subst this
        exact hall w' hw'
  · intro format data img himg
    simp [update_engine, himg]

/-- Witness for C4 at a concrete one-tab registry and viewport 2 by 2. -/
theorem C4_witness :
    update_engine (some false) false none 2 2
        (Views.mk [View.mk 3 (ImageInfo.blank 1 1)] [3])
      = (Views.mk [View.mk 3 (ImageInfo.blank 1 1)] [3]).setCurrentView
          (placeholderFrame 2 2) :=
  (C4_loading_gate none false none 2 2 3
      (Views.mk [View.mk 3 (ImageInfo.blank 1 1)] [3]) rfl
      ⟨View.mk 3 (ImageInfo.blank 1 1), List.mem_singleton_self _, rfl⟩).1

/-! ## Ultralight engine adapter (src/engines/ultralight.rs) -/

inductive EngineResult (α : Type) where
  | idDoesNotExist
  | notLoaded
  | success (value : α)
deriving DecidableEq

/-- One Ultralight `View` record: id, the backend surface's pixels as
returned by `lock_pixels()` (`none` when locking fails), the backend view's
url (written by `load_url`), the backend loading flag, the
`set_needs_paint` flag, and the cached `last_frame`. -/
structure ULView where
  id : Nat
  surface : Option (List Nat)
  url : String
  is_loading : Bool
  needs_paint : Bool
  last_frame : ImageInfo

structure Ultralight where
  views : List ULView

/-- `Ultralight::new_view(size)` (src/engines/ultralight.rs). The random id
and the backend surface contents are passed explicitly; `backendOk = false`
models `renderer.create_view(w + 10, h - 10, ..)` or `view.surface()`
returning `None`, in which case the `?` operator leaves the adapter
unchanged and returns no id. The stored `last_frame` is
`ImageInfo::default()` regardless of the requested size `w`, `h`. -/
def Ultralight.new_view (ul : Ultralight) (drawnId : Nat)
    (surface : Option (List Nat)) (backendOk : Bool) (_w _h : Nat) :
    Ultralight × Option Nat :=
  let fresh : ULView :=
    { id := drawnId
      surface := surface
      url := ""
      is_loading := true
      needs_paint := false
      last_frame := ImageInfo.default }
  if backendOk then ({ views := ul.views ++ [fresh] }, some drawnId)
  else (ul, none)

/-- `Ultralight::remove_view(id)`: retain views with a different id; report
`Some(())` exactly when the length changed. -/
def Ultralight.remove_view (ul : Ultralight) (id : Nat) :
    Ultralight × Option Unit :=
  let views' := ul.views.filter (fun v => decide (v.id ≠ id))
  ({ views := views' },
   if views'.length = ul.views.length then none else some ())

/-- `get_view_mut(id)` followed by a mutation of the found view: update the
first view with the given id, `none` when the id is absent. -/
def updateFirstUL : List ULView → Nat → (ULView → ULView) →
    Option (List ULView)
  | [], _, _ => none
  | v :: rest, id, f =>
      if v.id = id then some (f v :: rest)
      else (updateFirstUL rest id f).map (fun l => v :: l)

/-- `Ultralight::goto(id, PageType::Url(url))`:
`self.get_view_mut(id)?.view.load_url(&url)` — begin loading the url on the
first matching view (modelled as setting its url and loading flag);
the id being absent leaves the adapter unchanged and returns `None`. -/
def Ultralight.goto (ul : Ultralight) (id : Nat) (url : String) :
    Ultralight × Option Unit :=
  match updateFirstUL ul.views id
      (fun v => { v with url := url, is_loading := true }) with
  | none => (ul, none)
  | some vs => ({ views := vs }, some ())

/-- The paint loop of `Ultralight::request_render`: walk the views matching
the id; the first whose surface yields pixels gets
`ImageInfo::new(pixels, Bgra, w, h)` as its `last_frame` and the loop
reports `Some(())`. The outer `none` models the panic of the assertion
inside `ImageInfo::new`. -/
def lockPaint (w h id : Nat) : List ULView →
    Option (List ULView × Option Unit)
  | [] => some ([], none)
  | v :: rest =>
      if v.id = id then
        match v.surface with
        | some pixels =>
            match ImageInfo.new pixels PixelFormat.bgra w h with
            | none => none
            | some img => some ({ v with last_frame := img } :: rest, some ())
        | none => (lockPaint w h id rest).map (fun p => (v :: p.1, p.2))
      else (lockPaint w h id rest).map (fun p => (v :: p.1, p.2))

/-- `Ultralight::request_render(id, size)`:
`self.get_view_mut(id)?.view.set_needs_paint(true)` then the paint loop.
A missing id returns `None` (`?`) with the adapter unchanged; the outer
`none` models a panic inside the paint loop. -/
def Ultralight.request_render (ul : Ultralight) (id w h : Nat) :
    Option (Ultralight × Option Unit) :=
  match updateFirstUL ul.views id (fun v => { v with needs_paint := true }) with
  | none => some (ul, none)
  | some vs =>
      (lockPaint w h id vs).map (fun p => ({ views := p.1 }, p.2))

/-- `Ultralight::refresh` / `go_back` / `go_forward`:
`self.get_view_mut(id)?.view.reload()` (resp. `.go_back()`,
`.go_forward()`) — a pure backend call; the modelled state is unchanged,
and a missing id returns `None`. -/
def Ultralight.nav_call (ul : Ultralight) (id : Nat) :
    Ultralight × Option Unit :=
  if ul.views.any (fun v => v.id == id) then (ul, some ()) else (ul, none)

/-- `Engine::get_view for Ultralight`: `IdDoesNotExist` for an absent id,
`NotLoaded` while the backend view is loading, otherwise the cached
`last_frame`. -/
def Ultralight.get_view (ul : Ultralight) (id : Nat) :
    EngineResult ImageInfo :=
  match ul.views.find? (fun v => decide (v.id = id)) with
  | none => EngineResult.idDoesNotExist
  | some v => if v.is_loading then EngineResult.notLoaded
              else EngineResult.success v.last_frame

theorem updateFirstUL_missing : ∀ (l : List ULView) (id : Nat)
    (f : ULView → ULView), (∀ v ∈ l, v.id ≠ id) →
    updateFirstUL l id f = none
  | [], _, _, _ => rfl
  | v :: rest, id, f, h => by
      have hv : v.id ≠ id := h v (List.mem_cons_self _ _)
      simp only [updateFirstUL, if_neg hv]
      rw [updateFirstUL_missing rest id f
        (fun x hx => h x (List.mem_cons_of_mem _ hx))]
      rfl

theorem Ultralight.remove_view_missing (ul : Ultralight) (id : Nat)
    (h : ∀ v ∈ ul.views, v.id ≠ id) :
    ul.remove_view id = (ul, none) := by
  have hf : ul.views.filter (fun v => decide (v.id ≠ id)) = ul.views :=
    List.filter_eq_self.mpr (fun v hv => decide_eq_true (h v hv))
  cases ul with
  | mk views =>
    simp only [Ultralight.remove_view] at *
    rw [hf]
    simp

theorem Ultralight.goto_missing (ul : Ultralight) (id : Nat) (url : String)
    (h : ∀ v ∈ ul.views, v.id ≠ id) :
    ul.goto id url = (ul, none) := by
  simp only [Ultralight.goto]
  rw [updateFirstUL_missing ul.views id _ h]

theorem Ultralight.request_render_missing (ul : Ultralight) (id w h : Nat)
    (hm : ∀ v ∈ ul.views, v.id ≠ id) :
    ul.request_render id w h = some (ul, none) := by
  simp only [Ultralight.request_render]
  rw [updateFirstUL_missing ul.views id _ hm]

theorem Ultralight.nav_call_missing (ul : Ultralight) (id : Nat)
    (hm : ∀ v ∈ ul.views, v.id ≠ id) :
    ul.nav_call id = (ul, none) := by
  have hfalse : ul.views.any (fun v => v.id == id) = false := by
    rw [List.any_eq_false]
    intro v hv
    simpa using hm v hv
  simp [Ultralight.nav_call, hfalse]

/-! ## Advanced widget dispatch (src/webview/advanced.rs) -/

/-- Host notifications emitted by the widget's update. -/
inductive Notif where
  | viewClosed (id : Nat)
  | viewCreated (id : Nat)
  | urlChanged (id : Nat) (url : String)
  | titleChanged (id : Nat) (title : String)
deriving DecidableEq

/-- The advanced `WebView` state: the engine, the viewport, the cached
per-view urls and titles used by the notification diffing, and whether the
`on_close_view` callback is registered. -/
structure AdvWebView where
  engine : Ultralight
  view_size_w : Nat
  view_size_h : Nat
  urls : List (Nat × String)
  titles : List (Nat × String)
  has_on_close_view : Bool

/-- `Action::CloseView(id)` (src/webview/advanced.rs): remove from the
engine (result ignored), drop cached url/title entries for the id, then —
unconditionally, whether or not the id was present — emit the view-closed
notification when the callback is registered. Total: never panics. -/
def AdvWebView.closeView (s : AdvWebView) (id : Nat) :
    AdvWebView × List Notif :=
  let eng := (s.engine.remove_view id).1
  ({ s with engine := eng
            urls := s.urls.filter (fun u => decide (u.1 ≠ id))
            titles := s.titles.filter (fun t => decide (t.1 ≠ id)) },
   if s.has_on_close_view then [Notif.viewClosed id] else [])

/-- `Action::GoToUrl(id, url)` (src/webview/advanced.rs): `engine.goto`
(result ignored) then `engine.request_render` (result ignored); no task is
pushed. The outer `none` models a panic inside the paint loop. -/
def AdvWebView.goToUrl (s : AdvWebView) (id : Nat) (url : String) :
    Option (AdvWebView × List Notif) :=
  let eng1 := (s.engine.goto id url).1
  match eng1.request_render id s.view_size_w s.view_size_h with
  | none => none
  | some (eng2, _) => some ({ s with engine := eng2 }, [])

/-- `Action::Refresh` / `GoBackward` / `GoForward` (src/webview/advanced.rs):
the backend navigation call (result ignored) then `request_render` (result
ignored); no task is pushed. -/
def AdvWebView.navAndRender (s : AdvWebView) (id : Nat) :
    Option (AdvWebView × List Notif) :=
  let eng1 := (s.engine.nav_call id).1
  match eng1.request_render id s.view_size_w s.view_size_h with
  | none => none
  | some (eng2, _) => some ({ s with engine := eng2 }, [])

/-! ## Basic widget dispatch (src/webview/basic.rs) -/

/-- The basic `WebView` state: the engine, the user-facing index list
`view_ids`, and the current view index. -/
structure BasicWebView where
  engine : Ultralight
  view_ids : List Nat
  current_view_index : Option Nat
  view_size_w : Nat
  view_size_h : Nat

/-- `WebView::get_current_view_id` (src/webview/basic.rs lines 57-64):
`self.view_ids.get(self.current_view_index.expect(..)).expect(..)` — both
`expect`s are modelled by `none` (panic). -/
def BasicWebView.get_current_view_id (s : BasicWebView) : Option Nat :=
  match s.current_view_index with
  | none => none
  | some i => s.view_ids[i]?

/-- `WebView::index_as_view_id` (src/webview/basic.rs lines 66-71):
`self.view_ids.get(index).expect(..)`; `none` models the panic. -/
def BasicWebView.index_as_view_id (s : BasicWebView) (index : Nat) :
    Option Nat :=
  s.view_ids[index]?

/-- `Vec::remove(pos)`: removes the element at position `pos`, panicking
(`none`) when `pos` is out of bounds. -/
def vecRemove (l : List Nat) (pos : Nat) : Option (List Nat) :=
  if pos < l.length then some (l.eraseIdx pos) else none

/-- `Action::CloseView(index)` (src/webview/basic.rs): look the index up
(`expect` — `none` on panic), `engine.remove_view`, then
`self.view_ids.remove(self.index_as_view_id(index))` — note the source
passes the *view id* to `Vec::remove`, which takes a *position*. The
on-close message emission is not modelled (it carries no data and no claim
depends on it here). -/
def BasicWebView.closeView (s : BasicWebView) (index : Nat) :
    Option BasicWebView :=
  match s.index_as_view_id index with
  | none => none
  | some vid =>
    let eng := (s.engine.remove_view vid).1
    match s.index_as_view_id index with
    | none => none
    | some vid2 =>
      match vecRemove s.view_ids vid2 with
      | none => none
      | some ids' => some { s with engine := eng, view_ids := ids' }

/-- `Action::GoToUrl(url)` (src/webview/basic.rs): navigate the *current*
view — `self.engine.goto(self.get_current_view_id(), ..)` then
`request_render(self.get_current_view_id(), ..)`; `get_current_view_id`
panics (`none`) when the current index no longer resolves to an id. -/
def BasicWebView.goToUrl (s : BasicWebView) (url : String) :
    Option BasicWebView :=
  match s.get_current_view_id with
  | none => none
  | some vid =>
    let eng1 := (s.engine.goto vid url).1
    match s.get_current_view_id with
    | none => none
    | some vid2 =>
      match eng1.request_render vid2 s.view_size_w s.view_size_h with
      | none => none
      | some (eng2, _) => some { s with engine := eng2 }

/-! ## Claims C3, C5, C6 -/

/-- A one-view Ultralight adapter holding view id 0, as after a single
successful view creation (fresh frame `ImageInfo::default()`). -/
def ulOne : Ultralight :=
  { views := [{ id := 0, surface := none, url := "", is_loading := true,
                needs_paint := false, last_frame := ImageInfo.default }] }

/-- A basic widget holding that one view, with the current view index set
to 0 (as after `ChangeView(0)`). -/
def basicOne : BasicWebView :=
  { engine := ulOne, view_ids := [0], current_view_index := some 0,
    view_size_w := 1920, view_size_h := 1080 }

/-- Claim C3 counterexample: in the basic widget, `CloseView(0)` removes the
only view and leaves `current_view_index = Some(0)` dangling; the
immediately following `GoToUrl` resolves the current view through
`get_current_view_id`, whose `expect` panics (modelled `none`) — not a
silent no-op, refuting the claim's universal no-panic guarantee. -/
theorem C3_counterexample :
    (basicOne.closeView 0).isSome = true ∧
    (basicOne.closeView 0).bind
      (fun s => s.goToUrl "https://example.test") = none :=
  ⟨rfl, rfl⟩

/-- Claim C3 (amended): in the advanced widget the claim holds for the
engine-backed navigation commands: dispatching `GoToUrl`, `Refresh`,
`GoBackward` or `GoForward` with a ViewId not present in the engine is a
silent no-op — the engine lookups return `None`, the results are discarded,
the state is unchanged, no notification is pushed and no panic occurs. (In
the basic widget the same situation panics, per the counterexample; and
`CloseView` on a missing id still fires its notification, see C6.) -/
theorem C3_advanced_stale_id_noop (s : AdvWebView) (id : Nat) (url : String)
    (hmiss : ∀ v ∈ s.engine.views, v.id ≠ id) :
    s.goToUrl id url = some (s, []) ∧
    s.navAndRender id = some (s, []) := by
  have hgoto := Ultralight.goto_missing s.engine id url hmiss
  have hnav := Ultralight.nav_call_missing s.engine id hmiss
  have hrr := Ultralight.request_render_missing s.engine id
    s.view_size_w s.view_size_h hmiss
  constructor
  · simp [AdvWebView.goToUrl, hgoto, hrr]
  · simp [AdvWebView.navAndRender, hnav, hrr]

/-- Witness for the amended C3: one live view id 0, command on absent id 5. -/
theorem C3_witness :
    ({ engine := ulOne, view_size_w := 1920, view_size_h := 1080,
       urls := [], titles := [],
       has_on_close_view := false } : AdvWebView).goToUrl 5 "https://x.example"
      = some ({ engine := ulOne, view_size_w := 1920, view_size_h := 1080,
                urls := [], titles := [],
                has_on_close_view := false }, []) :=
  (C3_advanced_stale_id_noop _ 5 "https://x.example"
    (by intro v hv; simp [ulOne] at hv; simp [hv])).1

/-- Claim C5 counterexample: `Ultralight::new_view` with requested viewport
1920 by 1080 stores `last_frame := ImageInfo::default()`, whose dimensions
are the fixed 800 by 800 — not the requested viewport size, refuting the
claim that the fresh view's frame is sized to the creation viewport. -/
theorem C5_counterexample :
    ((Ultralight.mk []).new_view 7 none true 1920 1080).2 = some 7 ∧
    (((Ultralight.mk []).new_view 7 none true 1920 1080).1.views.map
        (fun v => (v.last_frame.width, v.last_frame.height)))
      = [(800, 800)] ∧
    ((800 : Nat), (800 : Nat)) ≠ ((1920 : Nat), (1080 : Nat)) := by
  refine ⟨rfl, rfl, by decide⟩

/-- Claim C5 (amended): immediately after creation the stored FrameBuffer is
the solid all-255 `ImageInfo::default()` placeholder — non-garbage and not
zero-sized, but with the fixed dimensions 800 by 800 regardless of the
viewport requested at creation. This holds both for the Ultralight
adapter's `new_view` and for the registry's `View::new`. -/
theorem C5_fresh_view_placeholder (ul : Ultralight) (drawnId : Nat)
    (surface : Option (List Nat)) (w h : Nat) :
    (∃ v, ((ul.new_view drawnId surface true w h).1.views).getLast? = some v ∧
      v.id = drawnId ∧ v.last_frame = ImageInfo.default ∧
      v.last_frame.width = 800 ∧ v.last_frame.height = 800 ∧
      v.last_frame.pixels.length = (800 * 800) * 4 ∧
      ∀ b ∈ v.last_frame.pixels, b = 255) ∧
    (View.new drawnId).view = ImageInfo.default ∧
    (View.new drawnId).view.width = 800 ∧
    (View.new drawnId).view.height = 800 := by
  refine ⟨⟨{ id := drawnId, surface := surface, url := "", is_loading := true,
             needs_paint := false, last_frame := ImageInfo.default },
    ?_, rfl, rfl, rfl, rfl, ImageInfo.default_pixels_length,
    ImageInfo.default_pixels_all_255⟩, rfl, rfl, rfl⟩
  exact List.getLast?_concat _

/-- An advanced widget holding the one-view engine with cached url/title
entries for id 0 and a registered on-close callback. -/
def advOne : AdvWebView :=
  { engine := ulOne, view_size_w := 1920, view_size_h := 1080,
    urls := [(0, "")], titles := [(0, "")], has_on_close_view := true }

/-- Claim C6 counterexample: with the on-close callback registered, the
second `CloseView(0)` emits the view-closed notification again — the
emission is unconditional, not gated on the id actually being removed —
refuting "does not fire a second view-closed notification". -/
theorem C6_counterexample :
    (advOne.closeView 0).2 = [Notif.viewClosed 0] ∧
    (((advOne.closeView 0).1).closeView 0).2 = [Notif.viewClosed 0] ∧
    ([Notif.viewClosed 0] : List Notif) ≠ [] := by
  refine ⟨rfl, rfl, by decide⟩

theorem filter_ne_idem {α : Type} (p : α → Bool) (l : List α) :
    (l.filter p).filter p = l.filter p :=
  List.filter_eq_self.mpr (fun _ ha => (List.mem_filter.mp ha).2)

/-- Claim C6 (amended): calling `CloseView` twice with the same id never
panics (the handler is total) and the second call does not change the state:
the first call removes every engine view and cached url/title entry with
that id, and the second call's removals find nothing, leaving the state
exactly as after the first call. However, the second call fires the
view-closed notification again whenever the callback is registered — the
emission is not gated on removal. -/
theorem C6_close_idempotent_state (s : AdvWebView) (id : Nat) :
    (∀ v ∈ ((s.closeView id).1).engine.views, v.id ≠ id) ∧
    (∀ u ∈ ((s.closeView id).1).urls, u.1 ≠ id) ∧
    ((s.closeView id).1.closeView id).1 = (s.closeView id).1 ∧
    (((s.closeView id).1.closeView id).2
      = if s.has_on_close_view then [Notif.viewClosed id] else []) := by
  cases s with
  | mk eng vw vh urls titles hc =>
    cases eng with
    | mk views =>
      refine ⟨?_, ?_, ?_, ?_⟩
      · intro v hv
        simp only [AdvWebView.closeView, Ultralight.remove_view] at hv
        exact of_decide_eq_true (List.mem_filter.mp hv).2
      · intro u hu
        simp only [AdvWebView.closeView, Ultralight.remove_view] at hu
        exact of_decide_eq_true (List.mem_filter.mp hu).2
      · simp only [AdvWebView.closeView, Ultralight.remove_view]
        simp [filter_ne_idem]
      · simp only [AdvWebView.closeView, Ultralight.remove_view]

/-! ## Keyboard translation: `iced_key_to_ultralight_key`
(src/engines/ultralight.rs) -/

inductive KeyPress where
  | press
  | unpress
deriving DecidableEq

/-- The named keys the translation maps (iced `keyboard::key::Named`);
`other` stands for every named key the source's catch-all `_ => return None`
rejects. -/
inductive NamedKey where
  | control
  | shiftKey
  | enter
  | tab
  | space
  | arrowDown
  | arrowLeft
  | arrowRight
  | arrowUp
  | endKey
  | home
  | backspace
  | delete
  | insert
  | escape
  | f1 | f2 | f3 | f4 | f5 | f6 | f7 | f8 | f9 | f10 | f11 | f12
  | other
deriving DecidableEq

/-- iced `keyboard::Key`. -/
inductive Key where
  | named (k : NamedKey)
  | character (s : String)
  | unidentified
deriving DecidableEq

/-- iced `keyboard::Modifiers` as queried by the source
(`alt()`, `control()`, `logo()`, `shift()`). -/
structure Modifiers where
  alt : Bool
  control : Bool
  logo : Bool
  shift : Bool
deriving DecidableEq

/-- `ul_next::key_code::VirtualKeyCode`, restricted to the codes the
translation table produces. -/
inductive VirtualKeyCode where
  | control | shiftKey | returnKey | tab | space
  | down | right | up | left
  | endKey | home | back | delete | insert | escape
  | f1 | f2 | f3 | f4 | f5 | f6 | f7 | f8 | f9 | f10 | f11 | f12
  | a | b | c | d | e | f | g | h | i | j | k | l | m
  | n | o | p | q | r | s | t | u | v | w | x | y | z
  | key0 | key1 | key2 | key3 | key4 | key5 | key6 | key7 | key8 | key9
  | oemComma | oemPeriod | oemMinus | oemPlus
  | oem2 | oem3 | oem4 | oem5 | oem6 | oem102
deriving DecidableEq

/-- `ul_next::event::KeyEventType` (the three values the source produces). -/
inductive KeyEventType where
  | rawKeyDown
  | keyUp
  | char
deriving DecidableEq

/-- The `KeyEventCreationInfo` the source builds (the fields of the
resulting Ultralight key event). -/
structure UlKeyEvent where
  ty : KeyEventType
  alt : Bool
  ctrl : Bool
  meta : Bool
  shift : Bool
  virtual_key : VirtualKeyCode
  native_key : Nat
  text : String
  unmodified_text : String
deriving DecidableEq

/-- The named-key half of the `(virtual_key, native_key)` lookup table
(unix native codes); the source's `_ => return None` is the `none` case. -/
def namedKeyCode : NamedKey → Option (VirtualKeyCode × Nat)
  | .control => some (.control, 29)
  | .shiftKey => some (.shiftKey, 42)
  | .enter => some (.returnKey, 28)
  | .tab => some (.tab, 15)
  | .space => some (.space, 57)
  | .arrowDown => some (.down, 108)
  | .arrowLeft => some (.right, 106)
  | .arrowRight => some (.up, 103)
  | .arrowUp => some (.left, 105)
  | .endKey => some (.endKey, 107)
  | .home => some (.home, 102)
  | .backspace => some (.back, 14)
  | .delete => some (.delete, 11)
  | .insert => some (.insert, 110)
  | .escape => some (.escape, 1)
  | .f1 => some (.f1, 59)
  | .f2 => some (.f2, 60)
  | .f3 => some (.f3, 61)
  | .f4 => some (.f4, 62)
  | .f5 => some (.f5, 63)
  | .f6 => some (.f6, 64)
  | .f7 => some (.f7, 65)
  | .f8 => some (.f8, 66)
  | .f9 => some (.f9, 67)
  | .f10 => some (.f10, 68)
  | .f11 => some (.f11, 69)
  | .f12 => some (.f12, 70)
  | .other => none

/-- The character half of the `(virtual_key, native_key)` lookup table
(unix native codes); the source's `_ => return None` is the `none` case. -/
def charKeyCode : String → Option (VirtualKeyCode × Nat)
  | "a" => some (.a, 30)
  | "b" => some (.b, 48)
  | "c" => some (.c, 46)
  | "d" => some (.d, 32)
  | "e" => some (.e, 18)
  | "f" => some (.f, 33)
  | "g" => some (.g, 34)
  | "h" => some (.h, 35)
  | "i" => some (.i, 23)
  | "j" => some (.j, 36)
  | "k" => some (.k, 37)
  | "l" => some (.l, 38)
  | "m" => some (.m, 50)
  | "n" => some (.n, 49)
  | "o" => some (.o, 24)
  | "p" => some (.p, 25)
  | "q" => some (.q, 16)
  | "r" => some (.r, 19)
  | "s" => some (.s, 31)
  | "t" => some (.t, 20)
  | "u" => some (.u, 22)
  | "v" => some (.v, 47)
  | "w" => some (.w, 17)
  | "x" => some (.x, 47)
  | "y" => some (.y, 21)
  | "z" => some (.z, 44)
  | "0" => some (.key0, 11)
  | "1" => some (.key1, 2)
  | "2" => some (.key2, 3)
  | "3" => some (.key3, 4)
  | "4" => some (.key4, 5)
  | "5" => some (.key5, 6)
  | "6" => some (.key6, 7)
  | "7" => some (.key7, 8)
  | "8" => some (.key8, 9)
  | "9" => some (.key9, 10)
  | "," => some (.oemComma, 51)
  | "." => some (.oemPeriod, 52)
  | ";" => some (.oemPeriod, 39)
  | "-" => some (.oemMinus, 12)
  | "_" => some (.oemMinus, 74)
  | "+" => some (.oemPlus, 78)
  | "=" => some (.oemPlus, 78)
  | "\\" => some (.oem5, 43)
  | "|" => some (.oem5, 43)
  | "`" => some (.oem3, 41)
  | "?" => some (.oem2, 53)
  | "/" => some (.oem2, 53)
  | ">" => some (.oem102, 52)
  | "<" => some (.oem102, 52)
  | "[" => some (.oem4, 26)
  | "]" => some (.oem6, 27)
  | _ => none

/-- The `text` computation of the translation: a named key yields `" "` for
space and `""` otherwise; a character key yields the host event's literal
text (or `""` when the host gave none); `Key::Unidentified` aborts the
translation (`return None`). -/
def keyText (key : Key) (text : Option String) : Option String :=
  match key with
  | .named k => if k = NamedKey.space then some " " else some ""
  | .character _ => some (text.getD "")
  | .unidentified => none

/-- `(virtual_key, native_key)` for a key; `Key::Unidentified` aborts. -/
def keyCode : Key → Option (VirtualKeyCode × Nat)
  | .named k => namedKeyCode k
  | .character s => charKeyCode s
  | .unidentified => none

/-- Rust `str::is_ascii`: every char at most 0x7F. -/
def isAsciiStr (s : String) : Bool := s.data.all (fun c => c.toNat ≤ 127)

/-- `iced_key_to_ultralight_key` (src/engines/ultralight.rs). A `none` key
(`ModifiersChanged` events), an unidentified key, or a key outside the
lookup tables yields no event. The event type is `RawKeyDown` whenever the
control modifier is held; otherwise `Char` for a non-empty ASCII text on a
press, else `RawKeyDown`/`KeyUp` by press kind. The `text` payload is the
computed literal text — it is not cleared when control is held. The final
`KeyEvent::new(..).ok()` backend constructor is modelled as succeeding. -/
def iced_key_to_ultralight_key (pressKind : KeyPress)
    (modified_key : Option Key) (key : Option Key)
    (_location : Option Unit) (modifiers : Modifiers)
    (text : Option String) : Option UlKeyEvent :=
  match key with
  | none => none
  | some k =>
    match keyText k text with
    | none => none
    | some txt =>
      match keyCode k with
      | none => none
      | some (vk, nk) =>
        let ty :=
          if modifiers.control then KeyEventType.rawKeyDown
          else if !(txt == "") && isAsciiStr txt
              && pressKind == KeyPress.press then KeyEventType.char
          else match pressKind with
            | KeyPress.press => KeyEventType.rawKeyDown
            | KeyPress.unpress => KeyEventType.keyUp
        let unmod :=
          match modified_key with
          | some (Key.character c) => c
          | _ => txt
        some { ty := ty
               alt := modifiers.alt
               ctrl := modifiers.control
               meta := modifiers.logo
               shift := modifiers.shift
               virtual_key := vk
               native_key := nk
               text := txt
               unmodified_text := unmod }

/-! ## Claim C7 -/

/-- Claim C7 counterexample: translating character key `'a'` carrying
literal text `"a"` with the Ctrl modifier held yields a `RawKeyDown` event
whose text payload is still `"a"`, not the empty string — the translation
changes only the event type under Ctrl and never clears the text, refuting
the claim's "empty text payload". -/
theorem C7_counterexample :
    (iced_key_to_ultralight_key KeyPress.press none
        (some (Key.character "a")) none
        { alt := false, control := true, logo := false, shift := false }
        (some "a")).map (fun ev => (ev.ty, ev.text))
      = some (KeyEventType.rawKeyDown, "a") ∧
    ("a" : String) ≠ "" := by
  refine ⟨rfl, by decide⟩

/-- Claim C7 (amended): for a character key in the lookup table carrying
non-empty ASCII literal text, a press with no Ctrl modifier translates to a
`Char` event whose text is that literal text (pressing `'a'` yields text
`"a"`), and the same press with Ctrl held translates to a `RawKeyDown`
event — but its text payload is the same literal text, not emptied; the
payload is empty only when the host event supplies no text. -/
theorem C7_key_translation (s t : String) (mods : Modifiers)
    (vknk : VirtualKeyCode × Nat) (hs : charKeyCode s = some vknk)
    (ht : ¬ t = "") (hascii : isAsciiStr t = true) :
    (iced_key_to_ultralight_key KeyPress.press none
        (some (Key.character s)) none mods (some t)).map
      (fun ev => (ev.ty, ev.text))
      = some ((if mods.control then KeyEventType.rawKeyDown
               else KeyEventType.char), t) ∧
    (iced_key_to_ultralight_key KeyPress.press none
        (some (Key.character s)) none mods none).map
      (fun ev => (ev.ty, ev.text))
      = some (KeyEventType.rawKeyDown, "") := by
  have ht' : (t == "") = false := by
    simpa using ht
  constructor
  · simp only [iced_key_to_ultralight_key, keyText, keyCode, hs,
      Option.getD, Option.map_some']
    cases hc : mods.control
    · simp [hc, ht', hascii]
    · simp [hc]
  · simp only [iced_key_to_ultralight_key, keyText, keyCode, hs,
      Option.getD, Option.map_some']
    cases hc : mods.control
    · simp [hc, isAsciiStr]
    · simp [hc]

/-- Witness for the amended C7 at the concrete key `'a'`, with and without
the Ctrl modifier. -/
theorem C7_witness :
    (iced_key_to_ultralight_key KeyPress.press none
        (some (Key.character "a")) none
        { alt := false, control := false, logo := false, shift := false }
        (some "a")).map (fun ev => (ev.ty, ev.text))
      = some ((if ({ alt := false, control := false, logo := false,
                     shift := false } : Modifiers).control then
                 KeyEventType.rawKeyDown
               else KeyEventType.char), "a") :=
  (C7_key_translation "a" "a"
    { alt := false, control := false, logo := false, shift := false }
    (VirtualKeyCode.a, 30) rfl (by decide) (by decide)).1

end IcedWebview
